import Mathlib

/-!
Verification of the MihomoCore proxy-process supervisor and telemetry poller
(`src/windows/runner/mihomo_core.cpp` / `mihomo_core.h`).

The C++ class `MihomoCore` is shallowly embedded as a state record
(`MihomoCore.CoreState`) together with pure transition functions translated
method-by-method from the source:

* `ParseControllerSettings` (mihomo_core.cpp:286-309): the two regex searches
  over the configuration text are modelled by their match outcome
  (`ConfigContent`): the `external-controller` match yields a host capture and
  an optional port capture, the `secret` match yields the secret capture.
  A file that cannot be opened is `none`.
* `Start` (mihomo_core.cpp:57-125): the outcomes of the `CreateProcessA` call
  and of the post-grace-period `GetExitCodeProcess` check are inputs
  (`spawnOk`, `exitedImmediately`).  The ghost field `spawnCount` counts
  successful `CreateProcessA` invocations so "no second spawn" is expressible.
* `Stop` (mihomo_core.cpp:127-161): the result of `WaitForSingleObject` is the
  input `exitedWithinWait`; the source ignores it, and so does the model.
  `StopMonitoring` (mihomo_core.cpp:337-346) sets the stop flag and joins the
  poller thread before `Stop` proceeds, which is modelled by clearing
  `threadAlive` atomically inside `Stop`; this is sound for properties about
  the state after `Stop` has returned, because the join blocks until the
  poller thread has exited.
* `PollCycle` (one iteration of the loop body in `StartTrafficMonitor`,
  mihomo_core.cpp:311-335): the HTTP `/traffic` body is modelled by its regex
  match outcome (`TrafficResp`, `none` = empty body).  `GetTickCount64` is the
  input `now` in milliseconds; it is monotone in reality, tracked by
  hypotheses where needed.  The C++ speed computation divides the `int64_t`
  counter difference by the `double` elapsed seconds and truncates the result
  back to `int64_t`; this is modelled exactly over the rationals as
  truncating division of `diff * 1000` by the elapsed milliseconds
  (`computeSpeed`), i.e. real division by elapsed seconds truncated toward
  zero.
* `ReloadConfig` (mihomo_core.cpp:163-172) on top of `HttpPut`
  (mihomo_core.cpp:411-470), whose 2xx status check is modelled by
  `HttpPut` over the optional received status code (`none` = transport
  failure).

Callback dispatch through the four observer slots is modelled by an emitted
event list (`Event`); a dispatch guarded by `if (callback_)` in the source
emits only when the corresponding registration flag is set.  Traces of caller
operations interleaved with poller cycles are executed by `step`/`run`.
-/

namespace MihomoCore

/-- Mirror of `struct TrafficStats` (mihomo_core.h:14-19): cumulative
counters plus derived rates, all `int64_t`. -/
structure TrafficStats where
  upload : Int
  download : Int
  uploadSpeed : Int
  downloadSpeed : Int
deriving Repr, DecidableEq

/-- Outcome of the two regex searches `ParseControllerSettings` performs on
the configuration file text (mihomo_core.cpp:294-308): `controller` is the
`external-controller` match (host capture, optional numeric port capture),
`secret` is the `secret` match capture. -/
structure ConfigContent where
  controller : Option (String × Option Nat)
  secret : Option String
deriving Repr, DecidableEq

/-- Outcome of the `"up"`/`"down"` regex searches `GetTrafficStats` performs
on a non-empty `/traffic` response body (mihomo_core.cpp:204-215). -/
structure TrafficResp where
  up : Option Nat
  down : Option Nat
deriving Repr, DecidableEq

/-- The member state of the singleton `MihomoCore` object (mihomo_core.h:86-112).
OS handles are modelled by their null-ness, the poller `std::thread` by
whether it is running (`threadAlive`), and the four `std::function` callback
slots by whether a callback is registered.  `spawnCount` is ghost
instrumentation counting successful `CreateProcessA` calls. -/
structure CoreState where
  workDir : String
  corePath : String
  configPath : String
  state : String
  controllerHost : String
  controllerPort : Nat
  controllerSecret : String
  processHandle : Bool
  processThread : Bool
  processId : Nat
  isRunning : Bool
  stopMonitoring : Bool
  threadAlive : Bool
  lastUpload : Int
  lastDownload : Int
  lastTime : Nat
  stateCallback : Bool
  trafficCallback : Bool
  errorCallback : Bool
  spawnCount : Nat
deriving Repr, DecidableEq

/-- The constructor `MihomoCore::MihomoCore` (mihomo_core.cpp:20-31):
loopback controller defaults, null handles, zeroed baseline, state
`"disconnected"`; strings and callback slots are default-constructed. -/
def initState : CoreState :=
  { workDir := "", corePath := "", configPath := "", state := "disconnected",
    controllerHost := "127.0.0.1", controllerPort := 9090, controllerSecret := "",
    processHandle := false, processThread := false, processId := 0,
    isRunning := false, stopMonitoring := false, threadAlive := false,
    lastUpload := 0, lastDownload := 0, lastTime := 0,
    stateCallback := false, trafficCallback := false, errorCallback := false,
    spawnCount := 0 }

/-- Events dispatched through the observer callbacks. -/
inductive Event where
  | stateEv (s : String)
  | trafficEv (stats : TrafficStats)
  | errorEv (msg : String)
deriving Repr, DecidableEq

/-- `MihomoCore::ParseControllerSettings` (mihomo_core.cpp:286-309).  An
unopenable file returns immediately; otherwise the host is overwritten when
the `external-controller` regex matches, the port only when its numeric
capture is non-empty, and the secret only when the `secret` regex matches. -/
def ParseControllerSettings (s : CoreState) (file : Option ConfigContent) : CoreState :=
  match file with
  | none => s
  | some c =>
      { s with
        controllerHost := match c.controller with
          | some (h, _) => h
          | none => s.controllerHost,
        controllerPort := match c.controller with
          | some (_, some p) => p
          | _ => s.controllerPort,
        controllerSecret := match c.secret with
          | some v => v
          | none => s.controllerSecret }

/-- `MihomoCore::GetTrafficStats` (mihomo_core.cpp:199-218): stats start as
all zeros; on a non-empty response each counter is filled only when its regex
matches. -/
def GetTrafficStats (response : Option TrafficResp) : TrafficStats :=
  match response with
  | none => { upload := 0, download := 0, uploadSpeed := 0, downloadSpeed := 0 }
  | some r =>
      { upload := (r.up.getD 0 : Nat), download := (r.down.getD 0 : Nat),
        uploadSpeed := 0, downloadSpeed := 0 }

/-- The speed computation of the traffic monitor (mihomo_core.cpp:321-322):
`static_cast<int64_t>((cur - prev) / ((now - last) / 1000.0))`, i.e. the
counter difference divided by the elapsed seconds, truncated toward zero.
Over the rationals, `diff / (deltaMs / 1000) = diff * 1000 / deltaMs`. -/
def computeSpeed (cur prev : Int) (deltaMs : Nat) : Int :=
  ((cur - prev) * 1000).tdiv (deltaMs : Int)

/-- One iteration of the polling loop body inside
`MihomoCore::StartTrafficMonitor` (mihomo_core.cpp:313-332).  The body runs
only when `isRunning_ && trafficCallback_`; it fetches a snapshot, emits a
rate event when a previous timestamp exists (`lastTime_ > 0`) and wall-clock
time advanced, and always stores the fetched snapshot and timestamp as the
new baseline. -/
def PollCycle (s : CoreState) (response : Option TrafficResp) (now : Nat) :
    CoreState × List Event :=
  if s.isRunning && s.trafficCallback then
    let stats0 := GetTrafficStats response
    let deltaMs := now - s.lastTime
    let events :=
      if 0 < s.lastTime ∧ 0 < deltaMs then
        [Event.trafficEv
          { stats0 with
            uploadSpeed := computeSpeed stats0.upload s.lastUpload deltaMs,
            downloadSpeed := computeSpeed stats0.download s.lastDownload deltaMs }]
      else []
    ({ s with lastUpload := stats0.upload, lastDownload := stats0.download,
              lastTime := now },
     events)
  else (s, [])

/-- `MihomoCore::Start` (mihomo_core.cpp:57-125).  Returns the new state, the
dispatched events, and the boolean result.  Already running: immediate
success.  Otherwise the configuration path is stored and parsed, the process
is spawned (`spawnOk` = `CreateProcessA` result), and after the grace period
the immediate-exit check (`exitedImmediately`) may abort the transition with
handles released.  On success the state becomes `"connected"`, the transition
is dispatched, and the traffic monitor thread is started. -/
def Start (s : CoreState) (configPath : String) (file : Option ConfigContent)
    (spawnOk : Bool) (pid : Nat) (exitedImmediately : Bool) :
    CoreState × List Event × Bool :=
  if s.isRunning then (s, [], true)
  else
    let s1 := ParseControllerSettings { s with configPath := configPath } file
    if spawnOk then
      let s2 := { s1 with processHandle := true, processThread := true,
                          processId := pid, spawnCount := s1.spawnCount + 1 }
      if exitedImmediately then
        ({ s2 with processHandle := false, processThread := false },
         if s2.errorCallback then [Event.errorEv "Core process exited immediately"] else [],
         false)
      else
        let s3 := { s2 with isRunning := true, state := "connected",
                            stopMonitoring := false, threadAlive := true }
        (s3,
         if s3.stateCallback then [Event.stateEv "connected"] else [],
         true)
    else
      (s1,
       if s1.errorCallback then [Event.errorEv "Failed to start core process"] else [],
       false)

/-- `MihomoCore::Stop` (mihomo_core.cpp:127-161).  Not running: immediate
success with nothing touched.  Otherwise: state `"disconnecting"` is set and
dispatched, `StopMonitoring` sets the stop flag and joins the poller thread,
the process is terminated — the `WaitForSingleObject` outcome
(`exitedWithinWait`) is ignored and the handles are closed unconditionally —
and finally the state becomes `"disconnected"` and is dispatched.  Returns
`true` on every path. -/
def Stop (s : CoreState) (exitedWithinWait : Bool) : CoreState × List Event × Bool :=
  if s.isRunning then
    let e1 := if s.stateCallback then [Event.stateEv "disconnecting"] else []
    let s2 := { s with state := "disconnected", stopMonitoring := true,
                       threadAlive := false, processHandle := false,
                       processThread := false, processId := 0, isRunning := false }
    let e2 := if s2.stateCallback then [Event.stateEv "disconnected"] else []
    (s2, e1 ++ e2, true)
  else (s, [], true)

/-- `MihomoCore::HttpPut` (mihomo_core.cpp:411-470) reduced to its
result-producing logic: the body of the response is never read; the result is
`"success"` exactly when a response was received with a 2xx status code, and
the empty string on any failure (`none` = transport failure or thrown
error). -/
def HttpPut (respStatus : Option Nat) : String :=
  match respStatus with
  | none => ""
  | some code => if 200 ≤ code ∧ code < 300 then "success" else ""

/-- `MihomoCore::ReloadConfig` (mihomo_core.cpp:163-172): PUT the new path to
`/configs?force=true`; on a non-empty response store the new configuration
path and re-parse the controller settings from the new file, returning
`true`; otherwise leave everything unchanged and return `false`. -/
def ReloadConfig (s : CoreState) (configPath : String) (respStatus : Option Nat)
    (newFile : Option ConfigContent) : CoreState × Bool :=
  let response := HttpPut respStatus
  if response ≠ "" then
    (ParseControllerSettings { s with configPath := configPath } newFile, true)
  else (s, false)

/-- Operations of a trace: lifecycle calls from the caller thread,
interleaved with iterations of the background polling loop.  Each operation
carries the environment inputs the corresponding source code consumes. -/
inductive Op where
  | start (configPath : String) (file : Option ConfigContent) (spawnOk : Bool)
      (pid : Nat) (exitedImmediately : Bool)
  | stop (exitedWithinWait : Bool)
  | poll (response : Option TrafficResp) (now : Nat)
deriving Repr, DecidableEq

/-- Execute one operation.  A `poll` only runs the loop body while the poller
thread exists (`threadAlive`); once `Stop` has joined the thread, polling is
impossible until the next successful `Start` re-creates it. -/
def step (s : CoreState) : Op → CoreState × List Event
  | .start cp file ok pid ex =>
      ((Start s cp file ok pid ex).1, (Start s cp file ok pid ex).2.1)
  | .stop w => ((Stop s w).1, (Stop s w).2.1)
  | .poll resp now => if s.threadAlive then PollCycle s resp now else (s, [])

/-- Execute a trace of operations, concatenating the dispatched events. -/
def run (s : CoreState) : List Op → CoreState × List Event
  | [] => (s, [])
  | op :: ops =>
      let r1 := step s op
      let r2 := run r1.1 ops
      (r2.1, r1.2 ++ r2.2)

/-- The state strings dispatched to the state observer, in order. -/
def stateEvents (es : List Event) : List String :=
  es.filterMap fun e =>
    match e with
    | .stateEv x => some x
    | _ => none

/-- The allowed single transitions of the Connection State machine
(spec §4.2). -/
def stepOk (a b : String) : Bool :=
  (a == "disconnected" && b == "connected") ||
  (a == "connected" && b == "disconnecting") ||
  (a == "disconnecting" && b == "disconnected")

/-- A sequence of dispatched states walks the allowed transition path
starting from `a`. -/
def chainOk : String → List String → Bool
  | _, [] => true
  | a, b :: rest => stepOk a b && chainOk b rest

/-- Last element of a list, or the default when empty. -/
def lastD : List String → String → String
  | [], d => d
  | x :: xs, _ => lastD xs x

/-- Whether an operation is a `Start` call. -/
def isStart : Op → Bool
  | .start _ _ _ _ _ => true
  | _ => false

/-- The supervisor/poller invariant relating the running flag to the
connection-state string: the two lifecycle operations keep them in lock
step. -/
def StateInv (s : CoreState) : Prop :=
  (s.isRunning = true ∧ s.state = "connected") ∨
  (s.isRunning = false ∧ s.state = "disconnected")

/-! ### Frame lemmas for `ParseControllerSettings` and `PollCycle` -/

theorem parse_eq (s : CoreState) (f : Option ConfigContent) :
    ParseControllerSettings s f =
      { s with controllerHost := (ParseControllerSettings s f).controllerHost,
               controllerPort := (ParseControllerSettings s f).controllerPort,
               controllerSecret := (ParseControllerSettings s f).controllerSecret } := by
  cases f <;> rfl

@[simp] theorem parse_state (s : CoreState) (f : Option ConfigContent) :
    (ParseControllerSettings s f).state = s.state := by cases f <;> rfl

@[simp] theorem parse_isRunning (s : CoreState) (f : Option ConfigContent) :
    (ParseControllerSettings s f).isRunning = s.isRunning := by cases f <;> rfl

@[simp] theorem parse_stateCallback (s : CoreState) (f : Option ConfigContent) :
    (ParseControllerSettings s f).stateCallback = s.stateCallback := by cases f <;> rfl

@[simp] theorem parse_trafficCallback (s : CoreState) (f : Option ConfigContent) :
    (ParseControllerSettings s f).trafficCallback = s.trafficCallback := by cases f <;> rfl

@[simp] theorem parse_errorCallback (s : CoreState) (f : Option ConfigContent) :
    (ParseControllerSettings s f).errorCallback = s.errorCallback := by cases f <;> rfl

@[simp] theorem parse_threadAlive (s : CoreState) (f : Option ConfigContent) :
    (ParseControllerSettings s f).threadAlive = s.threadAlive := by cases f <;> rfl

@[simp] theorem parse_lastUpload (s : CoreState) (f : Option ConfigContent) :
    (ParseControllerSettings s f).lastUpload = s.lastUpload := by cases f <;> rfl

@[simp] theorem parse_lastDownload (s : CoreState) (f : Option ConfigContent) :
    (ParseControllerSettings s f).lastDownload = s.lastDownload := by cases f <;> rfl

@[simp] theorem parse_lastTime (s : CoreState) (f : Option ConfigContent) :
    (ParseControllerSettings s f).lastTime = s.lastTime := by cases f <;> rfl

@[simp] theorem parse_spawnCount (s : CoreState) (f : Option ConfigContent) :
    (ParseControllerSettings s f).spawnCount = s.spawnCount := by cases f <;> rfl

@[simp] theorem parse_configPath (s : CoreState) (f : Option ConfigContent) :
    (ParseControllerSettings s f).configPath = s.configPath := by cases f <;> rfl

theorem pollCycle_fst (s : CoreState) (resp : Option TrafficResp) (now : Nat) :
    (PollCycle s resp now).1 =
      if s.isRunning && s.trafficCallback then
        { s with lastUpload := (GetTrafficStats resp).upload,
                 lastDownload := (GetTrafficStats resp).download,
                 lastTime := now }
      else s := by
  unfold PollCycle
  split <;> rfl

@[simp] theorem pollCycle_state (s : CoreState) (resp : Option TrafficResp) (now : Nat) :
    (PollCycle s resp now).1.state = s.state := by
  rw [pollCycle_fst]; split <;> rfl

@[simp] theorem pollCycle_isRunning (s : CoreState) (resp : Option TrafficResp) (now : Nat) :
    (PollCycle s resp now).1.isRunning = s.isRunning := by
  rw [pollCycle_fst]; split <;> rfl

@[simp] theorem pollCycle_stateCallback (s : CoreState) (resp : Option TrafficResp) (now : Nat) :
    (PollCycle s resp now).1.stateCallback = s.stateCallback := by
  rw [pollCycle_fst]; split <;> rfl

@[simp] theorem pollCycle_threadAlive (s : CoreState) (resp : Option TrafficResp) (now : Nat) :
    (PollCycle s resp now).1.threadAlive = s.threadAlive := by
  rw [pollCycle_fst]; split <;> rfl

/-! ### `stateEvents`, `chainOk`, `lastD` computation lemmas -/

@[simp] theorem stateEvents_nil : stateEvents [] = [] := rfl

@[simp] theorem stateEvents_cons_state (x : String) (es : List Event) :
    stateEvents (Event.stateEv x :: es) = x :: stateEvents es := rfl

@[simp] theorem stateEvents_cons_traffic (t : TrafficStats) (es : List Event) :
    stateEvents (Event.trafficEv t :: es) = stateEvents es := rfl

@[simp] theorem stateEvents_cons_error (m : String) (es : List Event) :
    stateEvents (Event.errorEv m :: es) = stateEvents es := rfl

@[simp] theorem stateEvents_append (es fs : List Event) :
    stateEvents (es ++ fs) = stateEvents es ++ stateEvents fs := by
  unfold stateEvents
  exact List.filterMap_append es fs _

/-- The poller never dispatches state events. -/
@[simp] theorem pollCycle_stateEvents (s : CoreState) (resp : Option TrafficResp) (now : Nat) :
    stateEvents (PollCycle s resp now).2 = [] := by
  unfold PollCycle
  split
  · dsimp only
    split <;> rfl
  · rfl

@[simp] theorem chainOk_nil (a : String) : chainOk a [] = true := rfl

@[simp] theorem chainOk_cons (a b : String) (rest : List String) :
    chainOk a (b :: rest) = (stepOk a b && chainOk b rest) := rfl

@[simp] theorem lastD_nil (d : String) : lastD [] d = d := rfl

@[simp] theorem lastD_cons (x d : String) (xs : List String) :
    lastD (x :: xs) d = lastD xs x := rfl

theorem chainOk_append (a : String) (xs ys : List String) :
    chainOk a (xs ++ ys) = (chainOk a xs && chainOk (lastD xs a) ys) := by
  induction xs generalizing a with
  | nil => simp
  | cons b rest ih => simp [ih b, Bool.and_assoc]

/-! ### Truncated division by whole seconds -/

/-- Dividing a counter difference by a whole number of seconds: with
`deltaMs = 1000 * k` milliseconds elapsed, `computeSpeed` is exactly the
difference truncation-divided by `k` seconds. -/
theorem computeSpeed_whole_seconds (cur prev : Int) (k : Nat) :
    computeSpeed cur prev (1000 * k) = (cur - prev).tdiv (k : Int) := by
  unfold computeSpeed
  have hnat : ∀ m : Nat, (m * 1000) / (1000 * k) = m / k := by
    intro m
    rw [Nat.mul_comm m 1000, Nat.mul_div_mul_left]
    decide
  have hofNat : ∀ m : Nat, ((m : Int) * 1000).tdiv ((1000 * k : Nat) : Int) =
      (m : Int).tdiv (k : Int) := by
    intro m
    have h1 : ((m : Int) * 1000) = ((m * 1000 : Nat) : Int) := by push_cast; ring
    rw [h1, ← Int.ofNat_tdiv, ← Int.ofNat_tdiv, hnat]
  cases hd : cur - prev with
  | ofNat m =>
      have := hofNat m
      simpa using this
  | negSucc m =>
      have hneg : (Int.negSucc m) = -((m + 1 : Nat) : Int) := by
        simp [Int.negSucc_eq]
      rw [hneg, Int.neg_mul, Int.neg_tdiv, Int.neg_tdiv]
      have := hofNat (m + 1)
      simpa using this

/-! ### Case lemmas for `Start` and `Stop` -/

/-- `Start` while already running is the identity (mihomo_core.cpp:58-60). -/
theorem Start_running (s : CoreState) (cp : String) (f : Option ConfigContent)
    (ok : Bool) (pid : Nat) (ex : Bool) (hr : s.isRunning = true) :
    Start s cp f ok pid ex = (s, [], true) := by
  unfold Start; rw [hr]; simp

theorem Start_stateCallback (s : CoreState) (cp : String) (f : Option ConfigContent)
    (ok : Bool) (pid : Nat) (ex : Bool) :
    (Start s cp f ok pid ex).1.stateCallback = s.stateCallback := by
  unfold Start
  split
  · rfl
  · split
    · split <;> simp
    · simp

theorem Start_lastUpload (s : CoreState) (cp : String) (f : Option ConfigContent)
    (ok : Bool) (pid : Nat) (ex : Bool) :
    (Start s cp f ok pid ex).1.lastUpload = s.lastUpload := by
  unfold Start
  split
  · rfl
  · split
    · split <;> simp
    · simp

theorem Start_lastDownload (s : CoreState) (cp : String) (f : Option ConfigContent)
    (ok : Bool) (pid : Nat) (ex : Bool) :
    (Start s cp f ok pid ex).1.lastDownload = s.lastDownload := by
  unfold Start
  split
  · rfl
  · split
    · split <;> simp
    · simp

theorem Start_lastTime (s : CoreState) (cp : String) (f : Option ConfigContent)
    (ok : Bool) (pid : Nat) (ex : Bool) :
    (Start s cp f ok pid ex).1.lastTime = s.lastTime := by
  unfold Start
  split
  · rfl
  · split
    · split <;> simp
    · simp

/-- From a non-running state, `Start` either succeeds — state `"connected"`,
running, the transition dispatched when a state observer is registered — or
fails with the running flag and connection state untouched and no state
event dispatched. -/
theorem Start_cases (s : CoreState) (cp : String) (f : Option ConfigContent)
    (ok : Bool) (pid : Nat) (ex : Bool) (hr : s.isRunning = false) :
    ((Start s cp f ok pid ex).2.2 = true ∧
     (Start s cp f ok pid ex).1.isRunning = true ∧
     (Start s cp f ok pid ex).1.state = "connected" ∧
     (Start s cp f ok pid ex).2.1 =
       (if s.stateCallback then [Event.stateEv "connected"] else [])) ∨
    ((Start s cp f ok pid ex).2.2 = false ∧
     (Start s cp f ok pid ex).1.isRunning = false ∧
     (Start s cp f ok pid ex).1.state = s.state ∧
     stateEvents (Start s cp f ok pid ex).2.1 = []) := by
  unfold Start
  rw [hr]
  by_cases hok : ok
  · by_cases hex : ex
    · right
      simp [hok, hex]
      split <;> simp
    · left
      simp [hok, hex]
  · right
    simp [hok]
    split <;> simp

/-- `Stop` while running (mihomo_core.cpp:132-160): both transitions
dispatched, monitor stopped and joined, handles released. -/
theorem Stop_running (s : CoreState) (w : Bool) (hr : s.isRunning = true) :
    Stop s w =
      ({ s with state := "disconnected", stopMonitoring := true,
                threadAlive := false, processHandle := false,
                processThread := false, processId := 0, isRunning := false },
       (if s.stateCallback then [Event.stateEv "disconnecting"] else []) ++
       (if s.stateCallback then [Event.stateEv "disconnected"] else []),
       true) := by
  unfold Stop; rw [hr]; simp

/-- `Stop` while not running is the identity (mihomo_core.cpp:128-130). -/
theorem Stop_not_running (s : CoreState) (w : Bool) (hr : s.isRunning = false) :
    Stop s w = (s, [], true) := by
  unfold Stop; rw [hr]; simp

/-! ### The state-machine path invariant -/

/-- Every single operation preserves `StateInv`, dispatches a state-event
segment that walks the allowed path from the pre-state, and ends that
segment on the post-state (assuming a state observer is registered, as the
observer cannot be re-registered mid-trace in the model). -/
theorem step_chain (s : CoreState) (op : Op) (hInv : StateInv s)
    (hcb : s.stateCallback = true) :
    StateInv (step s op).1 ∧ (step s op).1.stateCallback = true ∧
    chainOk s.state (stateEvents (step s op).2) = true ∧
    lastD (stateEvents (step s op).2) s.state = (step s op).1.state := by
  cases op with
  | start cp f ok pid ex =>
      simp only [step]
      rcases hInv with ⟨hr, hst⟩ | ⟨hr, hst⟩
      · rw [Start_running s cp f ok pid ex hr]
        exact ⟨Or.inl ⟨hr, hst⟩, hcb, by simp, by simp⟩
      · rcases Start_cases s cp f ok pid ex hr with ⟨_, h2, h3, h4⟩ | ⟨_, h2, h3, h4⟩
        · refine ⟨Or.inl ⟨h2, h3⟩, by rw [Start_stateCallback]; exact hcb, ?_, ?_⟩
          · rw [h4, hcb, hst]
            simp [stepOk]
          · rw [h4, hcb, h3]
            simp
        · refine ⟨Or.inr ⟨h2, by rw [h3, hst]⟩, by rw [Start_stateCallback]; exact hcb, ?_, ?_⟩
          · rw [h4]
            simp
          · rw [h4, h3]
            simp
  | stop w =>
      simp only [step]
      rcases hInv with ⟨hr, hst⟩ | ⟨hr, hst⟩
      · rw [Stop_running s w hr, hcb]
        refine ⟨Or.inr ⟨rfl, rfl⟩, by simp [hcb], ?_, ?_⟩
        · rw [hst]
          simp [stepOk]
        · simp
      · rw [Stop_not_running s w hr]
        exact ⟨Or.inr ⟨hr, hst⟩, hcb, by simp, by simp⟩
  | poll resp now =>
      simp only [step]
      by_cases ht : s.threadAlive
      · rw [if_pos ht]
        refine ⟨?_, by rw [pollCycle_stateCallback]; exact hcb, by simp, by simp⟩
        rcases hInv with ⟨hr, hst⟩ | ⟨hr, hst⟩
        · exact Or.inl ⟨by rw [pollCycle_isRunning]; exact hr, by rw [pollCycle_state]; exact hst⟩
        · exact Or.inr ⟨by rw [pollCycle_isRunning]; exact hr, by rw [pollCycle_state]; exact hst⟩
      · rw [if_neg ht]
        exact ⟨hInv, hcb, by simp, by simp⟩

/-- Over a whole trace: the dispatched state events walk the allowed path
starting from the pre-state's connection state. -/
theorem run_chain (ops : List Op) : ∀ s : CoreState, StateInv s →
    s.stateCallback = true →
    chainOk s.state (stateEvents (run s ops).2) = true := by
  induction ops with
  | nil => intro s _ _; simp [run]
  | cons op rest ih =>
      intro s hInv hcb
      obtain ⟨h1, h2, h3, h4⟩ := step_chain s op hInv hcb
      have hrun : (run s (op :: rest)).2 = (step s op).2 ++ (run (step s op).1 rest).2 := by
        simp [run]
      rw [hrun, stateEvents_append, chainOk_append, h3, h4]
      simpa using ih (step s op).1 h1 h2

/-! ### Quiescence after teardown -/

/-- In a state with no running process and no live poller thread, any trace
without a `Start` call does nothing and dispatches nothing. -/
theorem run_quiescent (ops : List Op) : ∀ s : CoreState, s.isRunning = false →
    s.threadAlive = false → ops.all (fun op => !isStart op) = true →
    run s ops = (s, []) := by
  induction ops with
  | nil => intro s _ _ _; rfl
  | cons op rest ih =>
      intro s hr ht hall
      simp only [List.all_cons, Bool.and_eq_true] at hall
      obtain ⟨hop, hrest⟩ := hall
      have hstep : step s op = (s, []) := by
        cases op with
        | start cp f ok pid ex => simp [isStart] at hop
        | stop w => simp [step, Stop_not_running s w hr]
        | poll resp now => simp [step, ht]
      simp [run, hstep, ih s hr ht hrest]

/-! ### Claim C1 -/

/-- C1: in every poll cycle with a previous sample (stored timestamp
positive) and positive elapsed time — here a whole number `k > 0` of
seconds — the emitted traffic event carries the current cumulative totals
together with uploadSpeed and downloadSpeed equal to the counter differences
divided by the elapsed seconds, truncated toward zero; the baseline advances
to the current sample. -/
theorem C1_traffic_rate (s : CoreState) (hr : s.isRunning = true)
    (hcb : s.trafficCallback = true) (ht : 0 < s.lastTime)
    (k : Nat) (hk : 0 < k) (up down : Nat) :
    PollCycle s (some ⟨some up, some down⟩) (s.lastTime + 1000 * k) =
      ({ s with lastUpload := (up : Int), lastDownload := (down : Int),
                lastTime := s.lastTime + 1000 * k },
       [Event.trafficEv
         { upload := (up : Int), download := (down : Int),
           uploadSpeed := ((up : Int) - s.lastUpload).tdiv (k : Int),
           downloadSpeed := ((down : Int) - s.lastDownload).tdiv (k : Int) }]) := by
  have h1000k : 0 < 1000 * k := by positivity
  simp [PollCycle, GetTrafficStats, hr, hcb, ht, h1000k, Nat.add_sub_cancel_left,
        computeSpeed_whole_seconds]

def c1State : CoreState :=
  { initState with
    isRunning := true, trafficCallback := true,
    lastTime := 1000, lastUpload := 1000, lastDownload := 2000 }

/-- C1 witness: counters (up=1000,down=2000) sampled one second before
counters (up=1500,down=2400) yield uploadSpeed 500 and downloadSpeed 400. -/
theorem C1_traffic_rate_witness :
    (PollCycle c1State (some ⟨some 1500, some 2400⟩) (c1State.lastTime + 1000 * 1)).2 =
      [Event.trafficEv
        { upload := 1500, download := 2400, uploadSpeed := 500, downloadSpeed := 400 }] := by
  rw [C1_traffic_rate c1State rfl rfl (by decide) 1 (by decide) 1500 2400]
  decide

/-! ### Claim C2 -/

/-- C2: over every trace of Start/Stop calls (with poll cycles interleaved),
the dispatched connection-state events only ever walk the path
disconnected → connected → disconnecting → disconnected; moreover every Stop
from connected dispatches "disconnecting" and then "disconnected" (never
skipping "disconnecting"), and every successful Start from disconnected
dispatches "connected". -/
theorem C2_state_path (ops : List Op) (tc ec : Bool) :
    chainOk "disconnected"
      (stateEvents (run { initState with
                          stateCallback := true,
                          trafficCallback := tc, errorCallback := ec } ops).2) = true ∧
    (∀ (s : CoreState) (w : Bool), s.isRunning = true → s.stateCallback = true →
       (Stop s w).2.1 = [Event.stateEv "disconnecting", Event.stateEv "disconnected"] ∧
       (Stop s w).1.state = "disconnected") ∧
    (∀ (s : CoreState) (cp : String) (f : Option ConfigContent) (ok : Bool)
       (pid : Nat) (ex : Bool), s.isRunning = false → s.stateCallback = true →
       (Start s cp f ok pid ex).2.2 = true →
       (Start s cp f ok pid ex).2.1 = [Event.stateEv "connected"] ∧
       (Start s cp f ok pid ex).1.state = "connected") := by
  refine ⟨?_, ?_, ?_⟩
  · exact run_chain ops
      { initState with
        stateCallback := true, trafficCallback := tc, errorCallback := ec }
      (Or.inr ⟨rfl, rfl⟩) rfl
  · intro s w hr hcb
    rw [Stop_running s w hr, hcb]
    exact ⟨rfl, rfl⟩
  · intro s cp f ok pid ex hr hcb hsucc
    rcases Start_cases s cp f ok pid ex hr with ⟨_, _, h3, h4⟩ | ⟨h1, _, _, _⟩
    · rw [h4, hcb]
      exact ⟨rfl, h3⟩
    · rw [hsucc] at h1
      cases h1

def c2State : CoreState := { initState with isRunning := true, stateCallback := true }

def c2SampleOps : List Op :=
  [Op.start "cfg" none true 7 false,
   Op.poll (some ⟨some 10, some 20⟩) 3000,
   Op.stop true,
   Op.start "cfg" none false 0 false,
   Op.stop false]

/-- C2 witness: the path property on a sample trace, and the two dispatched
transitions of a Stop from connected. -/
theorem C2_state_path_witness :
    chainOk "disconnected"
      (stateEvents (run { initState with
                          stateCallback := true,
                          trafficCallback := true, errorCallback := true }
                        c2SampleOps).2) = true ∧
    (Stop c2State true).2.1 =
      [Event.stateEv "disconnecting", Event.stateEv "disconnected"] :=
  ⟨(C2_state_path c2SampleOps true true).1,
   ((C2_state_path [] true true).2.1 c2State true rfl rfl).1⟩

/-! ### Claim C3 -/

def c3Init : CoreState := { initState with trafficCallback := true }

def c3Trace : List Op :=
  [Op.start "cfg" none true 41 false,
   Op.poll (some ⟨some 1000, some 2000⟩) 5000,
   Op.stop true,
   Op.start "cfg" none true 42 false]

/-- C3 counterexample: after a first session (Start, one poll at tick 5000,
Stop) and a second successful Start, the very first poll cycle of the new
session does emit a rate event — the baseline of the previous session was
never cleared, so the rates are computed against the old session's last
sample ((1500−1000)·1000 tdiv 7000 = 71, (2400−2000)·1000 tdiv 7000 = 57). -/
theorem C3_counterexample :
    (run c3Init c3Trace).1.isRunning = true ∧
    (step (run c3Init c3Trace).1 (Op.poll (some ⟨some 1500, some 2400⟩) 12000)).2 =
      [Event.trafficEv
        { upload := 1500, download := 2400, uploadSpeed := 71, downloadSpeed := 57 }] := by
  decide

/-- C3 (amended): the first poll cycle after the *first* successful Start
emits no rate event, because the stored timestamp is still its initial 0;
but neither Stop nor Start ever clears the previous-sample baseline, so a
rate event is emitted in exactly those poll cycles whose stored timestamp is
positive and strictly older than the current tick — after a restart this
already holds in the first cycle, using the previous session's last
sample. -/
theorem C3_first_poll :
    (∀ (s : CoreState) (cp : String) (f : Option ConfigContent) (ok : Bool)
       (pid : Nat) (ex : Bool), (Start s cp f ok pid ex).1.lastTime = s.lastTime) ∧
    initState.lastTime = 0 ∧
    (∀ (s : CoreState) (resp : Option TrafficResp) (now : Nat),
       s.isRunning = true → s.trafficCallback = true →
       ((PollCycle s resp now).2 ≠ [] ↔ 0 < s.lastTime ∧ s.lastTime < now)) := by
  refine ⟨Start_lastTime, rfl, ?_⟩
  intro s resp now hr hcb
  by_cases hc : 0 < s.lastTime ∧ 0 < now - s.lastTime
  · simp only [PollCycle, hr, hcb, Bool.and_self, if_true, if_pos hc]
    simp
    omega
  · simp only [PollCycle, hr, hcb, Bool.and_self, if_true, if_neg hc]
    simp
    omega

def c3aState : CoreState :=
  { initState with isRunning := true, trafficCallback := true, lastTime := 5000 }

/-- C3 witness: a poll with stored timestamp 5000 at tick 12000 emits a rate
event. -/
theorem C3_first_poll_witness :
    (PollCycle c3aState (some ⟨some 1500, some 2400⟩) 12000).2 ≠ [] ↔
      0 < c3aState.lastTime ∧ c3aState.lastTime < 12000 :=
  C3_first_poll.2.2 c3aState (some ⟨some 1500, some 2400⟩) 12000 rfl rfl

/-! ### Claim C4 -/

def c4Mid : CoreState := ParseControllerSettings initState (some ⟨none, some "abc"⟩)

/-- C4 counterexample: after a configuration carrying secret "abc" has been
parsed, parsing a configuration file that opens fine but contains no secret
field leaves the held secret at "abc" — the resulting secret is *not*
empty. -/
theorem C4_counterexample :
    (ParseControllerSettings c4Mid
        (some ⟨some ("10.0.0.1", some 9191), none⟩)).controllerSecret = "abc" ∧
    (ParseControllerSettings c4Mid
        (some ⟨some ("10.0.0.1", some 9191), none⟩)).controllerSecret ≠ "" := by
  decide

/-- C4 (amended): if the configuration file cannot be opened, host, port and
secret are all left unchanged; if it opens but the external-controller port
is absent, the previously held port is retained (while the host is taken
from the match); if it opens but contains no secret field, the *previously
held* secret is retained — which is empty only while no secret has ever been
parsed; host and port hold the loopback defaults (127.0.0.1, 9090) before
the first successful parse. -/
theorem C4_parse_retention :
    (∀ s : CoreState, ParseControllerSettings s none = s) ∧
    (∀ (s : CoreState) (host : String) (sec : Option String),
       (ParseControllerSettings s (some ⟨some (host, none), sec⟩)).controllerHost = host ∧
       (ParseControllerSettings s (some ⟨some (host, none), sec⟩)).controllerPort =
         s.controllerPort) ∧
    (∀ (s : CoreState) (ctl : Option (String × Option Nat)),
       (ParseControllerSettings s (some ⟨ctl, none⟩)).controllerSecret =
         s.controllerSecret) ∧
    initState.controllerHost = "127.0.0.1" ∧ initState.controllerPort = 9090 ∧
    initState.controllerSecret = "" := by
  refine ⟨fun s => rfl, fun s host sec => ⟨rfl, rfl⟩, fun s ctl => ?_, rfl, rfl, rfl⟩
  cases ctl with
  | none => rfl
  | some c => rfl

/-! ### Claim C5 -/

/-- C5: in every poll cycle in which the loop body performs a fetch (the
supervisor is running and a traffic observer is registered), the stored
previous-sample state is advanced to the snapshot fetched in that cycle and
to the current tick, regardless of whether a traffic event was emitted. -/
theorem C5_baseline_advanced (s : CoreState) (resp : Option TrafficResp) (now : Nat)
    (hr : s.isRunning = true) (hcb : s.trafficCallback = true) :
    (PollCycle s resp now).1 =
      { s with lastUpload := (GetTrafficStats resp).upload,
               lastDownload := (GetTrafficStats resp).download,
               lastTime := now } := by
  rw [pollCycle_fst, hr, hcb]
  simp

def c5State : CoreState := { initState with isRunning := true, trafficCallback := true }

/-- C5 witness: a first poll (which emits nothing, the stored timestamp being
0) still advances the baseline to the fetched snapshot. -/
theorem C5_baseline_advanced_witness :
    (PollCycle c5State (some ⟨some 7, none⟩) 1234).1 =
      { c5State with lastUpload := (GetTrafficStats (some ⟨some 7, none⟩)).upload,
                     lastDownload := (GetTrafficStats (some ⟨some 7, none⟩)).download,
                     lastTime := 1234 } :=
  C5_baseline_advanced c5State (some ⟨some 7, none⟩) 1234 rfl rfl

/-! ### Claim C6 -/

/-- C6: after any Stop call returns, no further traffic or state events are
delivered until a subsequent Start: Stop joins the poller thread to
completion, so every following trace containing no Start dispatches no
events at all.  The hypothesis `hq` is the standing invariant that a
non-running supervisor has no live poller thread. -/
theorem C6_quiescent_after_stop (s : CoreState) (w : Bool) (ops : List Op)
    (hq : s.isRunning = false → s.threadAlive = false)
    (hns : ops.all (fun op => !isStart op) = true) :
    (run (Stop s w).1 ops).2 = [] := by
  have hq' : (Stop s w).1.isRunning = false ∧ (Stop s w).1.threadAlive = false := by
    by_cases hr : s.isRunning = true
    · rw [Stop_running s w hr]
      exact ⟨rfl, rfl⟩
    · have hr' : s.isRunning = false := by simpa using hr
      rw [Stop_not_running s w hr']
      exact ⟨hr', hq hr'⟩
  rw [run_quiescent ops (Stop s w).1 hq'.1 hq'.2 hns]

def c6State : CoreState :=
  { initState with
    isRunning := true, threadAlive := true,
    stateCallback := true, trafficCallback := true }

/-- C6 witness: after stopping a running supervisor, a further Stop and a
further poll cycle dispatch nothing. -/
theorem C6_quiescent_after_stop_witness :
    (run (Stop c6State true).1
        [Op.stop true, Op.poll (some ⟨some 5, some 6⟩) 99]).2 = [] :=
  C6_quiescent_after_stop c6State true _
    (fun h => absurd h (by decide)) (by decide)

/-! ### Claim C7 -/

/-- C7: Start is idempotent: called while already running it returns success
immediately with the entire supervisor state unchanged — in particular no
state transition, no dispatched event, and (the result state being the input
state) an unchanged `spawnCount`, i.e. no second process spawned. -/
theorem C7_start_idempotent (s : CoreState) (cp : String) (f : Option ConfigContent)
    (ok : Bool) (pid : Nat) (ex : Bool) (hr : s.isRunning = true) :
    Start s cp f ok pid ex = (s, [], true) :=
  Start_running s cp f ok pid ex hr

def c7State : CoreState := { initState with isRunning := true, state := "connected" }

/-- C7 witness: Start on a connected supervisor is the identity and returns
success. -/
theorem C7_start_idempotent_witness :
    Start c7State "cfg" none true 7 false = (c7State, [], true) :=
  C7_start_idempotent c7State "cfg" none true 7 false rfl

/-! ### Claim C8 -/

/-- C8: Stop is idempotent and total: it returns success on every path; on an
already-stopped supervisor it is a no-op returning success; on a running
supervisor it clears the process handle unconditionally; and its result does
not depend on whether the process exited within the 3-second wait. -/
theorem C8_stop_idempotent_total :
    (∀ (s : CoreState) (w : Bool), (Stop s w).2.2 = true) ∧
    (∀ (s : CoreState) (w : Bool), s.isRunning = false → Stop s w = (s, [], true)) ∧
    (∀ (s : CoreState) (w : Bool), s.isRunning = true →
       (Stop s w).1.processHandle = false) ∧
    (∀ (s : CoreState) (w w' : Bool), Stop s w = Stop s w') := by
  refine ⟨?_, ?_, ?_, ?_⟩
  · intro s w
    unfold Stop
    split <;> rfl
  · intro s w hr
    exact Stop_not_running s w hr
  · intro s w hr
    rw [Stop_running s w hr]
  · intro s w w'
    rfl

/-- C8 witness: Stop on the freshly constructed (disconnected) supervisor is
a no-op returning success. -/
theorem C8_stop_idempotent_total_witness :
    Stop initState true = (initState, [], true) :=
  C8_stop_idempotent_total.2.1 initState true rfl

/-! ### Claim C9 -/

/-- C9: ReloadConfig succeeds exactly when the PUT of the new configuration
yields a non-empty success marker; on success it stores the new
configuration path and re-resolves the controller endpoint from the new
file; on failure it returns false and leaves the state — configuration path
and controller endpoint included — unchanged. -/
theorem C9_reload_config (s : CoreState) (cp : String) (st : Option Nat)
    (f : Option ConfigContent) :
    ((ReloadConfig s cp st f).2 = true ↔ HttpPut st ≠ "") ∧
    (HttpPut st ≠ "" →
       (ReloadConfig s cp st f).1 =
         ParseControllerSettings { s with configPath := cp } f ∧
       (ReloadConfig s cp st f).1.configPath = cp) ∧
    (HttpPut st = "" → ReloadConfig s cp st f = (s, false)) := by
  by_cases h : HttpPut st = ""
  · simp [ReloadConfig, h]
  · simp [ReloadConfig, h]

/-- C9 witness: a 204 response makes ReloadConfig adopt the new path and
re-parse the (here unopenable) new file. -/
theorem C9_reload_config_witness :
    (ReloadConfig initState "new.yaml" (some 204) none).1 =
      ParseControllerSettings { initState with configPath := "new.yaml" } none ∧
    (ReloadConfig initState "new.yaml" (some 204) none).1.configPath = "new.yaml" :=
  (C9_reload_config initState "new.yaml" (some 204) none).2.1 (by decide)

/-! ### Claim C10 -/

/-- C10: Stop does not reset the poller's previous-sample baseline: the
post-Stop state differs from the pre-Stop state exactly in the fields Stop
explicitly tears down — connection state, process handle and thread handle,
process id, running flag, monitor stop flag, and the joined poller thread —
so `lastUpload`, `lastDownload` and `lastTime` retain the last poll cycle's
values and the timestamp stays positive; a subsequent Start does not clear
them either. -/
theorem C10_baseline_survives_stop (s : CoreState) (w : Bool)
    (hr : s.isRunning = true) (ht : 0 < s.lastTime) :
    (Stop s w).1 =
      { s with state := "disconnected", stopMonitoring := true, threadAlive := false,
               processHandle := false, processThread := false, processId := 0,
               isRunning := false } ∧
    0 < (Stop s w).1.lastTime ∧
    (∀ (cp : String) (f : Option ConfigContent) (ok : Bool) (pid : Nat) (ex : Bool),
       (Start (Stop s w).1 cp f ok pid ex).1.lastUpload = s.lastUpload ∧
       (Start (Stop s w).1 cp f ok pid ex).1.lastDownload = s.lastDownload ∧
       (Start (Stop s w).1 cp f ok pid ex).1.lastTime = s.lastTime) := by
  have hS := Stop_running s w hr
  refine ⟨by rw [hS], by rw [hS]; exact ht, ?_⟩
  intro cp f ok pid ex
  rw [Start_lastUpload, Start_lastDownload, Start_lastTime, hS]
  exact ⟨rfl, rfl, rfl⟩

def c10State : CoreState :=
  { initState with
    isRunning := true, threadAlive := true,
    lastUpload := 3, lastDownload := 4, lastTime := 7 }

/-- C10 witness: stopping a running supervisor with baseline (3, 4, t=7)
changes only the torn-down fields, and a subsequent Start keeps the
baseline's timestamp. -/
theorem C10_baseline_survives_stop_witness :
    (Stop c10State true).1 =
      { c10State with state := "disconnected", stopMonitoring := true,
                      threadAlive := false, processHandle := false,
                      processThread := false, processId := 0, isRunning := false } ∧
    (Start (Stop c10State true).1 "cfg" none true 9 false).1.lastTime =
      c10State.lastTime :=
  ⟨(C10_baseline_survives_stop c10State true rfl (by decide)).1,
   ((C10_baseline_survives_stop c10State true rfl (by decide)).2.2
      "cfg" none true 9 false).2.2⟩

end MihomoCore
